import Mathlib

/-!
Shallow embedding of `src/cloudshell/cli/configurator.py`.

The module defines `CLIServiceConfigurator` (session resolution and
initialization) and `AbstractModeConfigurator` (abstract enable/config mode
contract).  Python dictionaries are modelled as association lists with
last-write-wins lookup (`pyLookupLast`), matching the overwrite semantics of
dict comprehensions and `dict.get`.  Exceptions (the `AttributeError` raised
by `None.lower()`) are modelled with `Option`.
-/

set_option autoImplicit false

/-- External resource configuration (`GenericCLIConfig`): read-only scalar
accessors consumed by the configurator.  `cli_connection_type` is `Option`
because the attribute may be unset (`None` in Python). -/
structure ResourceConfig where
  address : String
  user : String
  password : String
  private_key : String
  cli_tcp_port : Nat
  cli_connection_type : Option String
deriving DecidableEq, Repr

/-- A registered transport session class (external collaborator such as
`SSHSession` or `TelnetSession`): identified by its class name and exposing
the class attribute `SESSION_TYPE`. -/
structure SessionClass where
  name : String
  SESSION_TYPE : String
deriving DecidableEq, Repr

/-- The session descriptor produced by an initializer: a fully parameterized,
not-yet-opened session object.  `pkey` is `none` when the constructor was
called without the `pkey` keyword argument. -/
structure Session where
  cls : SessionClass
  host : String
  username : String
  password : String
  port : Nat
  on_session_start : String
  pkey : Option String
deriving DecidableEq, Repr

/-- An initializer bound to a configurator instance: called with the session
class, returns the session object (matches `session_initializer(sess)`). -/
def Initializer : Type := SessionClass → Session

/-- The `registered_sessions` argument: either a plain iterable of session
classes or a dict mapping session classes to initialize methods (a `none`
value models a dict entry whose value is `None`, which is falsy). -/
inductive RegisteredSessions where
  | list (xs : List SessionClass)
  | dict (xs : List (SessionClass × Option Initializer))

/-- Iterating a Python dict yields its keys; iterating a list yields its
elements (`for sess in self._registered_sessions`). -/
def RegisteredSessions.keys : RegisteredSessions → List SessionClass
  | .list xs => xs
  | .dict xs => xs.map Prod.fst

/-- Python dict lookup over an association list built by successive
insertions: a later binding of the same key overwrites an earlier one. -/
def pyLookupLast {α β : Type} [DecidableEq α] (k : α) : List (α × β) → Option β
  | [] => none
  | (k1, v) :: rest =>
    match pyLookupLast k rest with
    | some v2 => some v2
    | none => if k1 = k then some v else none

/-- Python `d.get(k, default)`. -/
def pyDictGet {α β : Type} [DecidableEq α] (entries : List (α × β)) (k : α)
    (default : β) : β :=
  (pyLookupLast k entries).getD default

/-- Python `str.lower()` (the inputs in this module are ASCII, where
per-character lowering coincides with Python's semantics). -/
def pyLower (s : String) : String := String.mk (s.data.map Char.toLower)

/-- Default registry: `REGISTERED_SESSIONS = (SSHSession, TelnetSession)`. -/
def SSHSession : SessionClass := { name := "SSHSession", SESSION_TYPE := "SSH" }

/-- External `TelnetSession` collaborator with `SESSION_TYPE = "TELNET"`. -/
def TelnetSession : SessionClass :=
  { name := "TelnetSession", SESSION_TYPE := "TELNET" }

/-- State of one `CLIServiceConfigurator` instance after `__init__`:
the resource configuration, the registered sessions, and the
`_on_session_start` hook (identified opaquely by a string, since the
embedding only ever forwards it). -/
structure CLIServiceConfigurator where
  resource_config : ResourceConfig
  registered_sessions : RegisteredSessions
  on_session_start : String

namespace CLIServiceConfigurator

/-- Class attribute `REGISTERED_SESSIONS`: the default registry in default
attempt order. -/
def REGISTERED_SESSIONS : List SessionClass := [SSHSession, TelnetSession]

/-- The `__init__` logic for `registered_sessions`:
`self._registered_sessions = registered_sessions or self.REGISTERED_SESSIONS`.
A missing argument (`none`) or a falsy one (empty list or dict) falls back to
the class default. -/
def init (resource_config : ResourceConfig)
    (registered_sessions : Option RegisteredSessions)
    (hook : String) : CLIServiceConfigurator :=
  { resource_config := resource_config
    registered_sessions :=
      match registered_sessions with
      | some (.list xs) => if xs.isEmpty then .list REGISTERED_SESSIONS else .list xs
      | some (.dict xs) => if xs.isEmpty then .list REGISTERED_SESSIONS else .dict xs
      | none => .list REGISTERED_SESSIONS
    on_session_start := hook }

/-- Property `_username`. -/
def username (c : CLIServiceConfigurator) : String := c.resource_config.user

/-- Property `_password` (functional value; the `lru_cache` call-counting
behaviour is modelled separately by `CredState`). -/
def password (c : CLIServiceConfigurator) : String := c.resource_config.password

/-- Property `_pkey` (functional value; caching modelled by `CredState`). -/
def pkey (c : CLIServiceConfigurator) : String := c.resource_config.private_key

/-- Property `_resource_address`. -/
def resource_address (c : CLIServiceConfigurator) : String :=
  c.resource_config.address

/-- Property `_port`. -/
def port (c : CLIServiceConfigurator) : Nat := c.resource_config.cli_tcp_port

/-- Property `_cli_type`: `self._resource_config.cli_connection_type`. -/
def cli_type (c : CLIServiceConfigurator) : Option String :=
  c.resource_config.cli_connection_type

/-- Property `_session_dict`: the dict comprehension
mapping each registered session's lowercased `SESSION_TYPE` to the singleton
list holding that session class.  Insertion order follows registration order,
so a duplicate lowercased key is overwritten by the later registration. -/
def session_dict (c : CLIServiceConfigurator) : List (String × List SessionClass) :=
  c.registered_sessions.keys.map (fun sess => (pyLower sess.SESSION_TYPE, [sess]))

/-- Method `_initialize_session`: builds the session with
`(host, username, password, port, on_session_start)` and no `pkey`. -/
def initialize_session (c : CLIServiceConfigurator) (session_class : SessionClass) :
    Session :=
  { cls := session_class
    host := c.resource_address
    username := c.username
    password := c.password
    port := c.port
    on_session_start := c.on_session_start
    pkey := none }

/-- Method `_initialize_ssh_session_with_pkey`: like `_initialize_session`
but additionally passes `pkey=self._pkey`. -/
def initialize_ssh_session_with_pkey (c : CLIServiceConfigurator)
    (session_class : SessionClass) : Session :=
  { cls := session_class
    host := c.resource_address
    username := c.username
    password := c.password
    port := c.port
    on_session_start := c.on_session_start
    pkey := some c.pkey }

/-- The initializer chosen inside the `_defined_sessions` loop for one
session class: when `registered_sessions` is a dict,
`self._registered_sessions.get(sess) or self._initialize_session`
(a missing key or a `None` value falls back to the default initializer);
otherwise always the default initializer. -/
def session_initializer (c : CLIServiceConfigurator) (sess : SessionClass) :
    Initializer :=
  match c.registered_sessions with
  | .list _ => c.initialize_session
  | .dict xs =>
    match pyLookupLast sess xs with
    | some (some f) => f
    | some none => c.initialize_session
    | none => c.initialize_session

/-- The candidate sequence iterated by `_defined_sessions` for a given
connection-type string:
`self._session_dict.get(self._cli_type.lower(), self._registered_sessions)`. -/
def resolveType (c : CLIServiceConfigurator) (ct : String) : List SessionClass :=
  pyDictGet c.session_dict (pyLower ct) c.registered_sessions.keys

/-- Method `_defined_sessions`: `none` models the `AttributeError` raised by
`self._cli_type.lower()` when `cli_connection_type` is `None`; otherwise the
resolved candidates are each built with the selected initializer, in order. -/
def defined_sessions (c : CLIServiceConfigurator) : Option (List Session) :=
  match c.cli_type with
  | none => none
  | some ct => some ((c.resolveType ct).map (fun sess => c.session_initializer sess sess))

/-- Method `get_cli_service`: forwards `self._defined_sessions()` and the
command mode to the external collaborator `self._cli.get_session` (passed
here as the function `get_session`; the logger is omitted as inert).  A
`none` result models the exception propagated from `_defined_sessions`. -/
def get_cli_service {R : Type} (c : CLIServiceConfigurator)
    (get_session : List Session → String → R) (command_mode : String) :
    Option R :=
  (c.defined_sessions).map (fun sessions => get_session sessions command_mode)

end CLIServiceConfigurator

/-- A concrete subclass of `AbstractModeConfigurator`: the configurator state
plus the two required mode properties (opaque `CommandMode` tokens modelled
as strings). -/
structure AbstractModeConfigurator extends CLIServiceConfigurator where
  enable_mode : String
  config_mode : String

namespace AbstractModeConfigurator

/-- Method `enable_mode_service`: `self.get_cli_service(self.enable_mode)`. -/
def enable_mode_service {R : Type} (m : AbstractModeConfigurator)
    (get_session : List Session → String → R) : Option R :=
  m.toCLIServiceConfigurator.get_cli_service get_session m.enable_mode

/-- Method `config_mode_service`: `self.get_cli_service(self.config_mode)`. -/
def config_mode_service {R : Type} (m : AbstractModeConfigurator)
    (get_session : List Session → String → R) : Option R :=
  m.toCLIServiceConfigurator.get_cli_service get_session m.config_mode

/-- The abstract method names of `AbstractModeConfigurator`: both
`enable_mode` and `config_mode` carry the `abstractmethod` decorator. -/
def abstractmethods : List String := ["enable_mode", "config_mode"]

end AbstractModeConfigurator

/-- A subclass of `AbstractModeConfigurator` at the class level, described by
the set of property names it overrides with concrete implementations. -/
structure ShellSubclass where
  implemented : List String
deriving DecidableEq, Repr

/-- The abstract methods a subclass leaves unimplemented (Python computes
this set when the class is created under `ABCMeta`). -/
def ShellSubclass.unimplemented (s : ShellSubclass) : List String :=
  AbstractModeConfigurator.abstractmethods.filter
    (fun m => !(s.implemented.contains m))

/-- Instantiation under `ABCMeta` (the `ABC` base built on line 10):
calling the class raises `TypeError` when any abstract method remains
unimplemented, before any method of the instance can run. -/
def ShellSubclass.instantiate (s : ShellSubclass) : Except String ShellSubclass :=
  if s.unimplemented = [] then Except.ok s
  else Except.error "TypeError: abstract methods"

/-! ### Concrete data for witness checks -/

/-- A concrete resource configuration used by the witness checks. -/
def rcBase : ResourceConfig :=
  { address := "192.168.1.10", user := "admin", password := "secret"
    private_key := "KEYDATA", cli_tcp_port := 22, cli_connection_type := none }

/-- A second SSH-typed session class (same `SESSION_TYPE`, different class),
used to exercise duplicate-type registration. -/
def SSHSessionV2 : SessionClass :=
  { name := "SSHSessionV2", SESSION_TYPE := "SSH" }

/-- A caller-supplied custom initialize method, used by the witness checks
for the override mapping. -/
def customInit : Initializer := fun s =>
  { cls := s, host := "jump.example", username := "svc", password := "p2"
    port := 2222, on_session_start := "custom_hook", pkey := some "K2" }

/-! ### The credential cache: state-level model of the memoized properties -/

/-- State of the two `lru_cache` decorated credential properties of one
configurator instance, together with counters for how often the underlying
`resource_config.password` and `resource_config.private_key` accessors have
been invoked. -/
structure CredState where
  password_cache : Option String
  pkey_cache : Option String
  password_calls : Nat
  pkey_calls : Nat
deriving DecidableEq, Repr

/-- Fresh instance: both caches empty, no accessor invoked yet. -/
def initialCredState : CredState :=
  { password_cache := none, pkey_cache := none
    password_calls := 0, pkey_calls := 0 }

/-- Reading the `_password` property: a cache hit returns the stored value
untouched; a miss invokes `resource_config.password` once and stores it. -/
def readPassword (rc : ResourceConfig) (st : CredState) : String × CredState :=
  match st.password_cache with
  | some v => (v, st)
  | none => (rc.password,
      { st with password_cache := some rc.password
                password_calls := st.password_calls + 1 })

/-- Reading the `_pkey` property, with the same cache discipline. -/
def readPkey (rc : ResourceConfig) (st : CredState) : String × CredState :=
  match st.pkey_cache with
  | some v => (v, st)
  | none => (rc.private_key,
      { st with pkey_cache := some rc.private_key
                pkey_calls := st.pkey_calls + 1 })

/-- One observable action on a configurator instance that touches the
credential properties: a direct property read, a `_initialize_session` call
(reads `_password`), or a `_initialize_ssh_session_with_pkey` call (reads
`_password` and `_pkey`). -/
inductive CredOp where
  | read_password
  | read_pkey
  | build_default_session
  | build_pkey_session
deriving DecidableEq, Repr

/-- Effect of one action on the cache state. -/
def credStep (rc : ResourceConfig) (st : CredState) : CredOp → CredState
  | .read_password => (readPassword rc st).2
  | .read_pkey => (readPkey rc st).2
  | .build_default_session => (readPassword rc st).2
  | .build_pkey_session => (readPkey rc (readPassword rc st).2).2

/-- Cache state after an arbitrary sequence of actions on a fresh instance. -/
def credRun (rc : ResourceConfig) (ops : List CredOp) : CredState :=
  ops.foldl (credStep rc) initialCredState

/-- Cache invariant: each accessor was invoked at most once, exactly when
its cache is filled, and a filled cache holds the accessor's value. -/
def CredInvariant (rc : ResourceConfig) (st : CredState) : Prop :=
  st.password_calls ≤ 1 ∧ st.pkey_calls ≤ 1 ∧
  (st.password_cache = none → st.password_calls = 0) ∧
  (st.pkey_cache = none → st.pkey_calls = 0) ∧
  (∀ v, st.password_cache = some v → v = rc.password) ∧
  (∀ v, st.pkey_cache = some v → v = rc.private_key)

/-! ### Helper lemmas about Python dict lookup -/

theorem pyLookupLast_eq_none {α β : Type} [DecidableEq α] (k : α)
    (l : List (α × β)) (h : ∀ p ∈ l, p.1 ≠ k) : pyLookupLast k l = none := by
  induction l with
  | nil => rfl
  | cons p rest ih =>
    obtain ⟨k1, v⟩ := p
    have hrest := ih (fun q hq => h q (List.mem_cons_of_mem _ hq))
    have hk1 : k1 ≠ k := h (k1, v) (List.mem_cons_self _ _)
    simp [pyLookupLast, hrest, hk1]

theorem pyLookupLast_append_last {α β : Type} [DecidableEq α] (k : α)
    (l1 l2 : List (α × β)) (v : β) (h2 : ∀ p ∈ l2, p.1 ≠ k) :
    pyLookupLast k (l1 ++ (k, v) :: l2) = some v := by
  induction l1 with
  | nil => simp [pyLookupLast, pyLookupLast_eq_none k l2 h2]
  | cons p rest ih => simp [pyLookupLast, ih]

theorem pyLookupLast_mem_nodup {α β : Type} [DecidableEq α] (k : α) (v : β)
    (l : List (α × β)) (hnd : (l.map Prod.fst).Nodup) (hmem : (k, v) ∈ l) :
    pyLookupLast k l = some v := by
  induction l with
  | nil => cases hmem
  | cons p rest ih =>
    obtain ⟨k1, v1⟩ := p
    simp only [List.map_cons, List.nodup_cons] at hnd
    rcases List.mem_cons.mp hmem with heq | hmem2
    · obtain ⟨hk, hv⟩ := Prod.mk.injEq .. ▸ heq
      subst hk hv
      have hnone : pyLookupLast k rest = none := by
        apply pyLookupLast_eq_none
        intro q hq hq1
        exact hnd.1 (hq1 ▸ List.mem_map_of_mem Prod.fst hq)
      simp [pyLookupLast, hnone]
    · have := ih hnd.2 hmem2
      simp [pyLookupLast, this]

/-! ### Resolution lemmas -/

theorem resolveType_unrecognized (c : CLIServiceConfigurator) (ct : String)
    (h : ∀ s ∈ c.registered_sessions.keys, pyLower s.SESSION_TYPE ≠ pyLower ct) :
    c.resolveType ct = c.registered_sessions.keys := by
  have hnone : pyLookupLast (pyLower ct) c.session_dict = none := by
    apply pyLookupLast_eq_none
    intro p hp
    simp only [CLIServiceConfigurator.session_dict, List.mem_map] at hp
    obtain ⟨s, hs, rfl⟩ := hp
    exact h s hs
  simp [CLIServiceConfigurator.resolveType, pyDictGet, hnone]

theorem resolveType_last_match (c : CLIServiceConfigurator) (ct : String)
    (l1 l2 : List SessionClass) (b : SessionClass)
    (hkeys : c.registered_sessions.keys = l1 ++ b :: l2)
    (hb : pyLower b.SESSION_TYPE = pyLower ct)
    (h2 : ∀ x ∈ l2, pyLower x.SESSION_TYPE ≠ pyLower ct) :
    c.resolveType ct = [b] := by
  have hdict : c.session_dict
      = (l1.map fun s => (pyLower s.SESSION_TYPE, [s]))
        ++ (pyLower ct, [b]) :: (l2.map fun s => (pyLower s.SESSION_TYPE, [s])) := by
    simp [CLIServiceConfigurator.session_dict, hkeys, hb]
  have hlook : pyLookupLast (pyLower ct) c.session_dict = some [b] := by
    rw [hdict]
    apply pyLookupLast_append_last
    intro p hp
    simp only [List.mem_map] at hp
    obtain ⟨s, hs, rfl⟩ := hp
    exact h2 s hs
  simp [CLIServiceConfigurator.resolveType, pyDictGet, hlook]

theorem pyLookupLast_session_unique (k : String) (l : List SessionClass)
    (b : SessionClass) (hmem : b ∈ l) (hb : pyLower b.SESSION_TYPE = k)
    (huniq : ∀ x ∈ l, pyLower x.SESSION_TYPE = k → x = b) :
    pyLookupLast k (l.map fun s => (pyLower s.SESSION_TYPE, [s])) = some [b] := by
  induction l with
  | nil => cases hmem
  | cons a rest ih =>
    by_cases hrest : ∀ x ∈ rest, pyLower x.SESSION_TYPE ≠ k
    · have hnone : pyLookupLast k (rest.map fun s => (pyLower s.SESSION_TYPE, [s]))
          = none := by
        apply pyLookupLast_eq_none
        intro p hp
        simp only [List.mem_map] at hp
        obtain ⟨s, hs, rfl⟩ := hp
        exact hrest s hs
      have hab : a = b := by
        rcases List.mem_cons.mp hmem with h | h
        · exact h.symm
        · exact absurd hb (hrest b h)
      subst hab
      simp [pyLookupLast, hnone, hb]
    · push_neg at hrest
      obtain ⟨x, hx, hxk⟩ := hrest
      have hxb : x = b := huniq x (List.mem_cons_of_mem _ hx) hxk
      subst hxb
      have htail := ih hx (fun y hy hyk => huniq y (List.mem_cons_of_mem _ hy) hyk)
      simp [pyLookupLast, htail]

theorem resolveType_unique_match (c : CLIServiceConfigurator) (ct : String)
    (b : SessionClass) (hmem : b ∈ c.registered_sessions.keys)
    (hb : pyLower b.SESSION_TYPE = pyLower ct)
    (huniq : ∀ x ∈ c.registered_sessions.keys,
      pyLower x.SESSION_TYPE = pyLower ct → x = b) :
    c.resolveType ct = [b] := by
  have hlook := pyLookupLast_session_unique (pyLower ct)
    c.registered_sessions.keys b hmem hb huniq
  simp [CLIServiceConfigurator.resolveType, CLIServiceConfigurator.session_dict,
    pyDictGet, hlook]

/-- C1: for every connection-type string that is not a key of the session
registry, `_defined_sessions` returns the full default-order sequence,
identical to the result for an unconfigured (empty-string) connection type,
and it never fails for an unrecognized string. -/
theorem defined_sessions_unrecognized_fallback
    (rc : ResourceConfig) (hook : String) (regs : List SessionClass) (ct : String)
    (hct : ∀ s ∈ regs, pyLower s.SESSION_TYPE ≠ pyLower ct)
    (hempty : ∀ s ∈ regs, pyLower s.SESSION_TYPE ≠ pyLower "") :
    (CLIServiceConfigurator.mk { rc with cli_connection_type := some ct }
        (.list regs) hook).defined_sessions
      = some (regs.map (CLIServiceConfigurator.mk
          { rc with cli_connection_type := some ct }
          (.list regs) hook).initialize_session) ∧
    (CLIServiceConfigurator.mk { rc with cli_connection_type := some ct }
        (.list regs) hook).defined_sessions
      = (CLIServiceConfigurator.mk { rc with cli_connection_type := some "" }
          (.list regs) hook).defined_sessions := by
  have h1 := resolveType_unrecognized
    (CLIServiceConfigurator.mk { rc with cli_connection_type := some ct }
      (.list regs) hook) ct hct
  have h2 := resolveType_unrecognized
    (CLIServiceConfigurator.mk { rc with cli_connection_type := some "" }
      (.list regs) hook) "" hempty
  constructor
  · simp [CLIServiceConfigurator.defined_sessions, CLIServiceConfigurator.cli_type,
      h1, CLIServiceConfigurator.session_initializer, RegisteredSessions.keys]
  · simp [CLIServiceConfigurator.defined_sessions, CLIServiceConfigurator.cli_type,
      h1, h2, CLIServiceConfigurator.session_initializer, RegisteredSessions.keys,
      CLIServiceConfigurator.initialize_session,
      CLIServiceConfigurator.resource_address, CLIServiceConfigurator.username,
      CLIServiceConfigurator.password, CLIServiceConfigurator.port]

/-- Witness for C1 at the default registry with connection type "auto". -/
theorem defined_sessions_unrecognized_fallback_check :
    (∀ s ∈ [SSHSession, TelnetSession],
      pyLower s.SESSION_TYPE ≠ pyLower "auto") ∧
    (∀ s ∈ [SSHSession, TelnetSession], pyLower s.SESSION_TYPE ≠ pyLower "") ∧
    ((CLIServiceConfigurator.mk { rcBase with cli_connection_type := some "auto" }
        (.list [SSHSession, TelnetSession]) "hook").defined_sessions
      = some (List.map (CLIServiceConfigurator.mk
          { rcBase with cli_connection_type := some "auto" }
          (.list [SSHSession, TelnetSession]) "hook").initialize_session
          [SSHSession, TelnetSession]) ∧
    (CLIServiceConfigurator.mk { rcBase with cli_connection_type := some "auto" }
        (.list [SSHSession, TelnetSession]) "hook").defined_sessions
      = (CLIServiceConfigurator.mk { rcBase with cli_connection_type := some "" }
          (.list [SSHSession, TelnetSession]) "hook").defined_sessions) :=
  ⟨by decide, by decide,
    defined_sessions_unrecognized_fallback rcBase "hook"
      [SSHSession, TelnetSession] "auto" (by decide) (by decide)⟩

/-- C2: for a connection-type string matching a registered key
case-insensitively (uniquely held by session class `b`), `_defined_sessions`
resolves exactly the registered singleton sequence for that key and builds
only that session. -/
theorem defined_sessions_registered_exact
    (rc : ResourceConfig) (hook : String) (regs : List SessionClass) (ct : String)
    (b : SessionClass) (hmem : b ∈ regs)
    (hb : pyLower b.SESSION_TYPE = pyLower ct)
    (huniq : ∀ x ∈ regs, pyLower x.SESSION_TYPE = pyLower ct → x = b) :
    (CLIServiceConfigurator.mk { rc with cli_connection_type := some ct }
        (.list regs) hook).resolveType ct = [b] ∧
    (CLIServiceConfigurator.mk { rc with cli_connection_type := some ct }
        (.list regs) hook).defined_sessions
      = some [(CLIServiceConfigurator.mk { rc with cli_connection_type := some ct }
          (.list regs) hook).initialize_session b] := by
  have h1 := resolveType_unique_match
    (CLIServiceConfigurator.mk { rc with cli_connection_type := some ct }
      (.list regs) hook) ct b hmem hb huniq
  refine ⟨h1, ?_⟩
  simp [CLIServiceConfigurator.defined_sessions, CLIServiceConfigurator.cli_type,
    h1, CLIServiceConfigurator.session_initializer]

/-- Witness for C2: the spec example with registry (ssh to SSH, telnet to
Telnet) and connection type "Telnet" yields the Telnet singleton. -/
theorem defined_sessions_registered_exact_check :
    TelnetSession ∈ [SSHSession, TelnetSession] ∧
    pyLower TelnetSession.SESSION_TYPE = pyLower "Telnet" ∧
    (∀ x ∈ [SSHSession, TelnetSession],
      pyLower x.SESSION_TYPE = pyLower "Telnet" → x = TelnetSession) ∧
    ((CLIServiceConfigurator.mk { rcBase with cli_connection_type := some "Telnet" }
        (.list [SSHSession, TelnetSession]) "hook").resolveType "Telnet"
      = [TelnetSession] ∧
    (CLIServiceConfigurator.mk { rcBase with cli_connection_type := some "Telnet" }
        (.list [SSHSession, TelnetSession]) "hook").defined_sessions
      = some [(CLIServiceConfigurator.mk
          { rcBase with cli_connection_type := some "Telnet" }
          (.list [SSHSession, TelnetSession]) "hook").initialize_session
          TelnetSession]) :=
  ⟨by decide, by decide, by decide,
    defined_sessions_registered_exact rcBase "hook" [SSHSession, TelnetSession]
      "Telnet" TelnetSession (by decide) (by decide) (by decide)⟩

/-- C9: with duplicate lowercased session types among the registered kinds,
resolution of that type keeps only the last-registered kind, while the
default fallback still lists every registered kind in registration order. -/
theorem duplicate_session_type_last_wins
    (rc : ResourceConfig) (hook : String) (l1 l2 : List SessionClass)
    (a b : SessionClass) (ct ct2 : String)
    (ha : a ∈ l1) (haty : pyLower a.SESSION_TYPE = pyLower ct)
    (hbty : pyLower b.SESSION_TYPE = pyLower ct)
    (h2 : ∀ x ∈ l2, pyLower x.SESSION_TYPE ≠ pyLower ct)
    (hct2 : ∀ x ∈ l1 ++ b :: l2, pyLower x.SESSION_TYPE ≠ pyLower ct2) :
    (CLIServiceConfigurator.mk rc (.list (l1 ++ b :: l2)) hook).resolveType ct
      = [b] ∧
    (CLIServiceConfigurator.mk rc (.list (l1 ++ b :: l2)) hook).resolveType ct2
      = l1 ++ b :: l2 := by
  constructor
  · exact resolveType_last_match
      (CLIServiceConfigurator.mk rc (.list (l1 ++ b :: l2)) hook) ct l1 l2 b
      rfl hbty h2
  · exact resolveType_unrecognized
      (CLIServiceConfigurator.mk rc (.list (l1 ++ b :: l2)) hook) ct2 hct2

/-- Witness for C9: two SSH-typed classes registered in order; resolving
"ssh" keeps only the second, while "console" falls back to both. -/
theorem duplicate_session_type_last_wins_check :
    SSHSession ∈ [SSHSession] ∧
    pyLower SSHSession.SESSION_TYPE = pyLower "ssh" ∧
    pyLower SSHSessionV2.SESSION_TYPE = pyLower "ssh" ∧
    (∀ x ∈ ([] : List SessionClass), pyLower x.SESSION_TYPE ≠ pyLower "ssh") ∧
    (∀ x ∈ [SSHSession] ++ SSHSessionV2 :: [],
      pyLower x.SESSION_TYPE ≠ pyLower "console") ∧
    ((CLIServiceConfigurator.mk rcBase
        (.list ([SSHSession] ++ SSHSessionV2 :: [])) "hook").resolveType "ssh"
      = [SSHSessionV2] ∧
    (CLIServiceConfigurator.mk rcBase
        (.list ([SSHSession] ++ SSHSessionV2 :: [])) "hook").resolveType "console"
      = [SSHSession] ++ SSHSessionV2 :: []) :=
  ⟨by decide, by decide, by decide, by decide, by decide,
    duplicate_session_type_last_wins rcBase "hook" [SSHSession] []
      SSHSession SSHSessionV2 "ssh" "console" (by decide) (by decide)
      (by decide) (by decide) (by decide)⟩

/-- C5: for every configured connection-type string, `_defined_sessions`
(with list-form registered sessions) maps the resolved sequence through the
default initializer in order, the produced session classes follow the
resolved order exactly, and every produced session carries the resource
configuration's address, user, password and cli_tcp_port. -/
theorem defined_sessions_order_and_fields
    (rc : ResourceConfig) (hook : String) (regs : List SessionClass)
    (ct : String) :
    (CLIServiceConfigurator.mk { rc with cli_connection_type := some ct }
        (.list regs) hook).defined_sessions
      = some (((CLIServiceConfigurator.mk
          { rc with cli_connection_type := some ct }
          (.list regs) hook).resolveType ct).map
          (CLIServiceConfigurator.mk { rc with cli_connection_type := some ct }
            (.list regs) hook).initialize_session) ∧
    (((CLIServiceConfigurator.mk { rc with cli_connection_type := some ct }
        (.list regs) hook).resolveType ct).map
        (CLIServiceConfigurator.mk { rc with cli_connection_type := some ct }
          (.list regs) hook).initialize_session).map Session.cls
      = (CLIServiceConfigurator.mk { rc with cli_connection_type := some ct }
          (.list regs) hook).resolveType ct ∧
    ((((CLIServiceConfigurator.mk { rc with cli_connection_type := some ct }
        (.list regs) hook).resolveType ct).map
        (CLIServiceConfigurator.mk { rc with cli_connection_type := some ct }
          (.list regs) hook).initialize_session).all fun s =>
        s.host == rc.address && s.username == rc.user
          && s.password == rc.password && s.port == rc.cli_tcp_port) = true := by
  refine ⟨?_, ?_, ?_⟩
  · simp [CLIServiceConfigurator.defined_sessions, CLIServiceConfigurator.cli_type,
      CLIServiceConfigurator.session_initializer]
  · simp [List.map_map, Function.comp_def, CLIServiceConfigurator.initialize_session]
  · simp only [List.all_eq_true]
    intro s hs
    simp only [List.mem_map] at hs
    obtain ⟨x, hx, rfl⟩ := hs
    simp [CLIServiceConfigurator.initialize_session,
      CLIServiceConfigurator.resource_address, CLIServiceConfigurator.username,
      CLIServiceConfigurator.password, CLIServiceConfigurator.port]

/-- C10: session resolution is total exactly on string connection types:
`_defined_sessions` returns a list for every string value, but a `None`
connection type makes it raise (modelled as `none`). -/
theorem defined_sessions_totality
    (rc : ResourceConfig) (hook : String) (regs : RegisteredSessions) :
    (∀ ct : String,
      ((CLIServiceConfigurator.mk { rc with cli_connection_type := some ct }
        regs hook).defined_sessions).isSome = true) ∧
    (CLIServiceConfigurator.mk { rc with cli_connection_type := none }
        regs hook).defined_sessions = none := by
  constructor
  · intro ct
    simp [CLIServiceConfigurator.defined_sessions, CLIServiceConfigurator.cli_type]
  · simp [CLIServiceConfigurator.defined_sessions, CLIServiceConfigurator.cli_type]

/-- C4 as stated is false on the code: with the default list registry (no
override), the SSH session class is built by `_initialize_session`, which
supplies no private-key material, not by
`_initialize_ssh_session_with_pkey`. -/
theorem pkey_initializer_not_auto_selected :
    (CLIServiceConfigurator.mk { rcBase with cli_connection_type := some "ssh" }
        (.list [SSHSession]) "hook").defined_sessions
      = some [(CLIServiceConfigurator.mk
          { rcBase with cli_connection_type := some "ssh" }
          (.list [SSHSession]) "hook").initialize_session SSHSession] ∧
    ((CLIServiceConfigurator.mk { rcBase with cli_connection_type := some "ssh" }
        (.list [SSHSession]) "hook").initialize_session SSHSession).pkey
      = none ∧
    ((CLIServiceConfigurator.mk { rcBase with cli_connection_type := some "ssh" }
        (.list [SSHSession]) "hook").initialize_ssh_session_with_pkey SSHSession).pkey
      = some "KEYDATA" ∧
    (CLIServiceConfigurator.mk { rcBase with cli_connection_type := some "ssh" }
          (.list [SSHSession]) "hook").initialize_session SSHSession
      ≠ (CLIServiceConfigurator.mk { rcBase with cli_connection_type := some "ssh" }
          (.list [SSHSession]) "hook").initialize_ssh_session_with_pkey SSHSession := by
  refine ⟨by decide, by decide, by decide, by decide⟩

/-- C4 amended: absent a custom override (list-form registration), every
kind is built by the default initializer, which supplies host, username,
password, port and the hook but no private key; the key-aware initializer
additionally supplies the private key and is used only via an override. -/
theorem default_initializer_absent_override
    (rc : ResourceConfig) (hook : String) (regs : List SessionClass)
    (s : SessionClass) :
    (CLIServiceConfigurator.mk rc (.list regs) hook).session_initializer s
      = (CLIServiceConfigurator.mk rc (.list regs) hook).initialize_session ∧
    ((CLIServiceConfigurator.mk rc (.list regs) hook).initialize_session s).pkey
      = none ∧
    (CLIServiceConfigurator.mk rc (.list regs) hook).initialize_ssh_session_with_pkey s
      = { (CLIServiceConfigurator.mk rc (.list regs) hook).initialize_session s
            with pkey := some rc.private_key } := by
  refine ⟨rfl, rfl, rfl⟩

/-- C8: `enable_mode_service` and `config_mode_service` call the session
acquisition collaborator with the respective mode token and exactly the
session list `_defined_sessions` produces. -/
theorem mode_services_delegate {R : Type} (m : AbstractModeConfigurator)
    (get_session : List Session → String → R) :
    m.enable_mode_service get_session
      = (m.toCLIServiceConfigurator.defined_sessions).map
          (fun sessions => get_session sessions m.enable_mode) ∧
    m.config_mode_service get_session
      = (m.toCLIServiceConfigurator.defined_sessions).map
          (fun sessions => get_session sessions m.config_mode) := by
  exact ⟨rfl, rfl⟩

/-- C6: with dict-form registered sessions, a kind mapped to a custom
initialize method is built by that method; a kind with no custom method
(missing key or a `None` value) is built by the default initializer. -/
theorem dict_override_precedence
    (rc : ResourceConfig) (hook : String)
    (xs : List (SessionClass × Option Initializer)) (ct : String)
    (hnd : (xs.map Prod.fst).Nodup)
    (hct : ∀ p ∈ xs, pyLower p.1.SESSION_TYPE ≠ pyLower ct) :
    (CLIServiceConfigurator.mk { rc with cli_connection_type := some ct }
        (.dict xs) hook).defined_sessions
      = some (xs.map fun p =>
          match p.2 with
          | some f => f p.1
          | none => (CLIServiceConfigurator.mk
              { rc with cli_connection_type := some ct }
              (.dict xs) hook).initialize_session p.1) := by
  have hkeys : ∀ s ∈ (RegisteredSessions.dict xs).keys,
      pyLower s.SESSION_TYPE ≠ pyLower ct := by
    intro s hs
    simp only [RegisteredSessions.keys, List.mem_map] at hs
    obtain ⟨p, hp, rfl⟩ := hs
    exact hct p hp
  have hres := resolveType_unrecognized
    (CLIServiceConfigurator.mk { rc with cli_connection_type := some ct }
      (.dict xs) hook) ct hkeys
  simp only [CLIServiceConfigurator.defined_sessions,
    CLIServiceConfigurator.cli_type, hres]
  congr 1
  simp only [RegisteredSessions.keys, List.map_map]
  apply List.map_congr_left
  intro p hp
  obtain ⟨k, v⟩ := p
  have hlook : pyLookupLast k xs = some v := pyLookupLast_mem_nodup k v xs hnd hp
  simp only [Function.comp_def, CLIServiceConfigurator.session_initializer, hlook]
  cases v <;> rfl

/-- Witness for C6: SSH mapped to a custom method, Telnet mapped to `None`;
the SSH descriptor comes from the custom method, the Telnet one from the
default initializer. -/
theorem dict_override_precedence_check :
    (([(SSHSession, some customInit), (TelnetSession, none)].map
        Prod.fst).Nodup) ∧
    (∀ p ∈ [(SSHSession, some customInit), (TelnetSession, none)],
      pyLower p.1.SESSION_TYPE ≠ pyLower "auto") ∧
    (CLIServiceConfigurator.mk { rcBase with cli_connection_type := some "auto" }
        (.dict [(SSHSession, some customInit), (TelnetSession, none)])
        "hook").defined_sessions
      = some [customInit SSHSession,
          (CLIServiceConfigurator.mk
            { rcBase with cli_connection_type := some "auto" }
            (.dict [(SSHSession, some customInit), (TelnetSession, none)])
            "hook").initialize_session TelnetSession] :=
  ⟨by decide, by decide,
    dict_override_precedence rcBase "hook"
      [(SSHSession, some customInit), (TelnetSession, none)] "auto"
      (by decide) (by decide)⟩

/-- C7: a shell subclass implementing only `enable_mode` still has
`config_mode` abstract, so calling the class raises `TypeError` and no
instance exists on which `config_mode_service` could later fail. -/
theorem incomplete_shell_rejected_at_instantiation (s : ShellSubclass)
    (henable : "enable_mode" ∈ s.implemented)
    (hconfig : "config_mode" ∉ s.implemented) :
    s.instantiate = Except.error "TypeError: abstract methods" := by
  have h1 : s.implemented.contains "enable_mode" = true := by simpa using henable
  have h2 : s.implemented.contains "config_mode" = false := by simpa using hconfig
  simp [ShellSubclass.instantiate, ShellSubclass.unimplemented,
    AbstractModeConfigurator.abstractmethods, List.filter, h1, h2,
    henable, hconfig]

/-- Witness for C7: the subclass implementing only `enable_mode` is rejected
at instantiation. -/
theorem incomplete_shell_rejected_at_instantiation_check :
    "enable_mode" ∈ ["enable_mode"] ∧ "config_mode" ∉ ["enable_mode"] ∧
    (ShellSubclass.mk ["enable_mode"]).instantiate
      = Except.error "TypeError: abstract methods" :=
  ⟨by decide, by decide,
    incomplete_shell_rejected_at_instantiation (ShellSubclass.mk ["enable_mode"])
      (by decide) (by decide)⟩

theorem readPassword_invariant (rc : ResourceConfig) (st : CredState)
    (h : CredInvariant rc st) : CredInvariant rc (readPassword rc st).2 := by
  obtain ⟨h1, h2, h3, h4, h5, h6⟩ := h
  cases hc : st.password_cache with
  | some v =>
    simp only [readPassword, hc]
    exact ⟨h1, h2, h3, h4, h5, h6⟩
  | none =>
    simp only [readPassword, hc]
    refine ⟨by simp [h3 hc], h2, by simp, h4, ?_, h6⟩
    intro v hv
    cases hv
    rfl

theorem readPkey_invariant (rc : ResourceConfig) (st : CredState)
    (h : CredInvariant rc st) : CredInvariant rc (readPkey rc st).2 := by
  obtain ⟨h1, h2, h3, h4, h5, h6⟩ := h
  cases hc : st.pkey_cache with
  | some v =>
    simp only [readPkey, hc]
    exact ⟨h1, h2, h3, h4, h5, h6⟩
  | none =>
    simp only [readPkey, hc]
    refine ⟨h1, by simp [h4 hc], h3, by simp, h5, ?_⟩
    intro v hv
    cases hv
    rfl

theorem credStep_invariant (rc : ResourceConfig) (st : CredState) (op : CredOp)
    (h : CredInvariant rc st) : CredInvariant rc (credStep rc st op) := by
  cases op with
  | read_password => exact readPassword_invariant rc st h
  | read_pkey => exact readPkey_invariant rc st h
  | build_default_session => exact readPassword_invariant rc st h
  | build_pkey_session =>
    exact readPkey_invariant rc _ (readPassword_invariant rc st h)

theorem credFoldl_invariant (rc : ResourceConfig) (ops : List CredOp) :
    ∀ st : CredState, CredInvariant rc st →
      CredInvariant rc (ops.foldl (credStep rc) st) := by
  induction ops with
  | nil => intro st h; exact h
  | cons op rest ih =>
    intro st h
    exact ih _ (credStep_invariant rc st op h)

theorem credRun_invariant (rc : ResourceConfig) (ops : List CredOp) :
    CredInvariant rc (credRun rc ops) := by
  refine credFoldl_invariant rc ops initialCredState ?_
  refine ⟨by simp [initialCredState], by simp [initialCredState],
    fun _ => rfl, fun _ => rfl, ?_, ?_⟩ <;>
    · intro v hv
      simp [initialCredState] at hv

/-- C3: across any sequence of property reads and descriptor builds on one
fresh configurator instance, the underlying `password` and `private_key`
accessors are invoked at most once each, and every read still returns the
resource configuration's value. -/
theorem credential_accessors_at_most_once (rc : ResourceConfig)
    (ops : List CredOp) :
    (credRun rc ops).password_calls ≤ 1 ∧ (credRun rc ops).pkey_calls ≤ 1 ∧
    (readPassword rc (credRun rc ops)).1 = rc.password ∧
    (readPkey rc (credRun rc ops)).1 = rc.private_key := by
  obtain ⟨h1, h2, h3, h4, h5, h6⟩ := credRun_invariant rc ops
  refine ⟨h1, h2, ?_, ?_⟩
  · cases hc : (credRun rc ops).password_cache with
    | none => simp [readPassword, hc]
    | some v => simp [readPassword, hc, h5 v hc]
  · cases hc : (credRun rc ops).pkey_cache with
    | none => simp [readPkey, hc]
    | some v => simp [readPkey, hc, h6 v hc]
